import Mathlib

/-!
Verification development for the `network-view-osx` backend
(`backend/main.go`): the mDNS discovery-and-broadcast engine.

The Go source is shallowly embedded: the mutable `MDNSServer` state
(`clients`, `seen`, `currentIface`) becomes an explicit state record,
Go maps used as sets become `List String` with membership tests, Go
channels become bounded queues (`List`), and every network exchange is
parameterised by an explicit environment (`DNSEnv`) mapping questions
to optional answer lists (`none` models an error, a timeout, or a nil
reply).  Functions return the updated state together with the list of
events handed to `broadcast`, so "number of Hub publications" is the
length of that list.
-/

namespace NetworkView

/-! ### String helpers mirroring the Go standard library calls used -/

/-- `strings.TrimSuffix(s, ".")`: drop one trailing `"."` if present.
Implemented over the character list so that it evaluates inside the
kernel. -/
def trimSuffixDot (s : String) : String :=
  match s.data.getLast? with
  | some c => if c = '.' then String.mk s.data.dropLast else s
  | none => s

/-- `strings.Split` on the separator `"."`, over a character list:
maximal runs between dots, with empty fields kept, so
`"a.b." ↦ ["a", "b", ""]` and `"" ↦ [""]`, as in Go. -/
def splitDot : List Char → List (List Char)
  | [] => [[]]
  | c :: cs =>
    if c = '.' then [] :: splitDot cs
    else
      match splitDot cs with
      | [] => [[c]]
      | p :: ps => (c :: p) :: ps

/-- `strings.Split(s, ".")` as a list of strings. -/
def splitOnDot (s : String) : List String :=
  (splitDot s.data).map String.mk

/-- `strings.Split(s, ".")[0]`: the prefix of `s` before the first dot
(the whole string when no dot occurs), as used at main.go:390 to derive
the human-readable service name.  Go's `Split` never returns an empty
slice, so indexing by 0 is total. -/
def firstLabel (s : String) : String :=
  (splitOnDot s).headD ""

/-- `fmt.Sprintf("%s:%s:%d", ip, serviceType, port)` — the deduplication
identity key built at main.go:201, main.go:287 and main.go:393. -/
def mkKey (ip serviceType : String) (port : Nat) : String :=
  ip ++ ":" ++ serviceType ++ ":" ++ toString port

/-! ### Data model (main.go:20-39) -/

/-- `MDNSService` (main.go:20-27).  Ports are `uint16` in Go; the embedding
uses `Nat` (all ports written by the code come from `uint16` fields). -/
structure MDNSService where
  name : String
  type : String
  host : String
  ip : String
  port : Nat
  timestamp : Int
deriving DecidableEq, Repr

/-- `DiscoveryResponse` (main.go:29-32). -/
structure DiscoveryResponse where
  service : MDNSService
  removed : Bool
deriving DecidableEq, Repr

/-- One subscriber of the Hub: a channel id plus its pending queue
(`make(chan *DiscoveryResponse, 100)` at main.go:80). -/
structure Subscriber where
  id : Nat
  queue : List DiscoveryResponse
deriving DecidableEq, Repr

/-- The `MDNSServer` state (main.go:34-39): registered client channels,
the `seen` key set, and the currently selected interface name. -/
structure ServerState where
  clients : List Subscriber
  seen : List String
  currentIface : String
deriving DecidableEq, Repr

/-- `NewMDNSServer` (main.go:41-47). -/
def NewMDNSServer : ServerState :=
  { clients := [], seen := [], currentIface := "en5" }

/-! ### Broadcast Hub (main.go:49-72, 80-83) -/

/-- Capacity of every subscriber channel (main.go:80). -/
def chanCapacity : Nat := 100

/-- The non-blocking send `select case ch <- response default` used by
`broadcast` (main.go:54-58): enqueue when there is spare capacity,
otherwise drop the event for this subscriber. -/
def trySend (q : List DiscoveryResponse) (e : DiscoveryResponse) :
    List DiscoveryResponse :=
  if q.length < chanCapacity then q ++ [e] else q

/-- `(*MDNSServer).broadcast` (main.go:49-60): attempt a non-blocking
send to every registered client. -/
def broadcast (clients : List Subscriber) (e : DiscoveryResponse) :
    List Subscriber :=
  clients.map (fun c => { c with queue := trySend c.queue e })

/-! ### Deduplication cache

The cache is the `seen` map.  At main.go:395-401 (`queryHostIP`) the
admission is one critical section: lock, test `seen[key]`, set
`seen[key] = true`, unlock.  `tryAdmit` is that inlined check-and-set. -/

/-- Atomic check-and-set admission as inlined in `queryHostIP`
(main.go:395-401). -/
def tryAdmit (seen : List String) (k : String) : Bool × List String :=
  if k ∈ seen then (false, seen) else (true, k :: seen)

/-- `server.seen = make(map[string]bool)` (main.go:559): the reset
performed by the interface-switch handler. -/
def resetSeen : List String := []

/-! ### DNS environment and Record Resolver (main.go:319-452)

Every `dns.Client.Exchange` against `224.0.0.251:5353` and every
`net.LookupIP` fallback is modelled by an explicit environment.
`exchange` returns `none` when the Go call yields an error or a nil
reply (both paths make the caller give up on that tier), and
`some answers` for a parsed reply whose `Answer` section is `answers`. -/

/-- The question types the code asks for (`dns.TypePTR`, `dns.TypeSRV`,
`dns.TypeA`). -/
inductive QType
  | ptrQ
  | srvQ
  | aQ
deriving DecidableEq, Repr

/-- One DNS answer record, tagged by kind, carrying exactly the fields
the Go code reads: `Hdr.Name` plus `Ptr` for PTR, `Target` and `Port`
for SRV, the address literal for A. -/
inductive DNSAnswer
  | ptr (hdrName : String) (ptrTarget : String)
  | srv (hdrName : String) (target : String) (port : Nat)
  | a (hdrName : String) (addr : String)
deriving DecidableEq, Repr

/-- One address returned by `net.LookupIP`: its literal and whether
`ip.To4() != nil`. -/
structure IPAddr where
  literal : String
  isV4 : Bool
deriving DecidableEq, Repr

/-- The network environment a discovery run executes against. -/
structure DNSEnv where
  exchange : String → QType → Option (List DNSAnswer)
  lookupIP : String → Option (List IPAddr)

/-- The scan `for _, ans := range in.Answer` at main.go:432-437: the
first A record's address, if any. -/
def firstA : List DNSAnswer → Option String
  | [] => none
  | DNSAnswer.a _ addr :: _ => some addr
  | _ :: rest => firstA rest

/-- The unicast fallback of `resolveHostIP` (main.go:439-451):
`net.LookupIP`, then the first IPv4 result; `""` on error or when no
IPv4 address exists. -/
def lookupFallback (env : DNSEnv) (hostname : String) : String :=
  match env.lookupIP hostname with
  | none => ""
  | some ips =>
    match ips.find? (fun ip => ip.isV4) with
    | some ip => ip.literal
    | none => ""

/-- `resolveHostIP` (main.go:420-452): query `hostname + "."` for an A
record on the multicast group; when that exchange errs, returns nil, or
carries no A record, fall back to unicast resolution. -/
def resolveHostIP (env : DNSEnv) (hostname : String) : String :=
  match env.exchange (hostname ++ ".") QType.aQ with
  | some answers =>
    match firstA answers with
    | some addr => addr
    | none => lookupFallback env hostname
  | none => lookupFallback env hostname

/-- The first-tier (multicast) outcome of `resolveHostIP`, used to state
the two-tier fallback order. -/
def multicastA (env : DNSEnv) (hostname : String) : Option String :=
  match env.exchange (hostname ++ ".") QType.aQ with
  | some answers => firstA answers
  | none => none

/-! ### Resolution pipeline (main.go:273-315, 319-418)

Each stage returns the updated `seen` set together with the list of
`DiscoveryResponse` values passed to `broadcast`, in call order. -/

/-- `queryHostIP` (main.go:379-418): resolve the SRV target to an
address, atomically admit the `(ip, serviceType, port)` key, and on
admission publish the assembled service.  `now` stands for
`time.Now().Unix()`. -/
def queryHostIP (env : DNSEnv) (seen : List String)
    (host serviceName serviceType : String) (port : Nat) (now : Int) :
    List String × List DiscoveryResponse :=
  let hostname := trimSuffixDot host
  let ip := resolveHostIP env hostname
  if ip = "" then (seen, [])
  else
    let name := firstLabel serviceName
    let key := mkKey ip serviceType port
    if key ∈ seen then (seen, [])
    else
      (key :: seen,
       [{ service :=
            { name := name, type := serviceType, host := hostname,
              ip := ip, port := port, timestamp := now },
          removed := false }])

/-- `queryServiceDetails` (main.go:353-377): ask for the instance's SRV
record on the multicast group and run `queryHostIP` for every SRV
answer received. -/
def queryServiceDetails (env : DNSEnv) (seen : List String)
    (serviceName serviceType : String) (now : Int) :
    List String × List DiscoveryResponse :=
  match env.exchange serviceName QType.srvQ with
  | none => (seen, [])
  | some answers =>
    answers.foldl
      (fun acc ans =>
        match ans with
        | DNSAnswer.srv _ target port =>
          let out := queryHostIP env acc.1 target serviceName serviceType port now
          (out.1, acc.2 ++ out.2)
        | _ => acc)
      (seen, [])

/-- Dispatch of one answer record by the multicast listener
(main.go:273-315): PTR answers enter the resolver chain via
`queryServiceDetails`; SRV answers are resolved inline with the
two-step seen check of main.go:289-296; other record kinds are
ignored (no matching `case` in the `switch`). -/
def processAnswer (env : DNSEnv) (seen : List String) (now : Int) :
    DNSAnswer → List String × List DiscoveryResponse
  | DNSAnswer.ptr hdrName ptrTarget =>
    queryServiceDetails env seen ptrTarget hdrName now
  | DNSAnswer.srv hdrName target port =>
    let parts := splitOnDot hdrName
    if 2 ≤ parts.length then
      let serviceType := hdrName
      let hostname := trimSuffixDot target
      let ip := resolveHostIP env hostname
      if ip = "" then (seen, [])
      else
        let name := parts.headD ""
        let key := mkKey ip serviceType port
        if key ∈ seen then (seen, [])
        else
          (key :: seen,
           [{ service :=
                { name := name, type := serviceType, host := hostname,
                  ip := ip, port := port, timestamp := now },
              removed := false }])
    else (seen, [])
  | DNSAnswer.a _ _ => (seen, [])

/-- The listener's walk over all answers of one parsed message
(main.go:273). -/
def processAnswers (env : DNSEnv) (seen : List String) (now : Int)
    (answers : List DNSAnswer) : List String × List DiscoveryResponse :=
  answers.foldl
    (fun acc ans =>
      let out := processAnswer env acc.1 now ans
      (out.1, acc.2 ++ out.2))
    (seen, [])

/-- `discoverService` (main.go:319-351): the scheduler's one-shot PTR
query for a catalog entry; every PTR answer enters
`queryServiceDetails` with the queried service type. -/
def discoverService (env : DNSEnv) (seen : List String)
    (serviceType : String) (now : Int) :
    List String × List DiscoveryResponse :=
  match env.exchange serviceType QType.ptrQ with
  | none => (seen, [])
  | some answers =>
    answers.foldl
      (fun acc ans =>
        match ans with
        | DNSAnswer.ptr _ ptrTarget =>
          let out := queryServiceDetails env acc.1 ptrTarget serviceType now
          (out.1, acc.2 ++ out.2)
        | _ => acc)
      (seen, [])

/-! ### Interfaces and the Discovery Controller (main.go:454-471, 515-563) -/

/-- One entry of `net.Interfaces()`: the fields the code reads
(`Name`, `MTU`, and the `FlagUp` bit of `Flags`). -/
structure NetInterface where
  name : String
  mtu : Nat
  up : Bool
deriving DecidableEq, Repr

/-- `getNetworkInterfaces` (main.go:454-471): keep the administratively
up interfaces (the enumeration's error case yields no list and is
modelled by the caller receiving `[]`, exactly what the handler's
`ifaces, _ :=` produces). -/
def getNetworkInterfaces (sys : List NetInterface) : List NetInterface :=
  sys.filter (fun i => i.up)

/-- Outcome reported by the `/api/interfaces/set` handler. -/
inductive SetIfaceResult
  | ok (iface : String)
  | badRequest
  | notFound (iface : String)
deriving DecidableEq, Repr

/-- The `/api/interfaces/set` handler body (main.go:515-563) after
request decoding: `req` is the decoded `"interface"` field (`none` for
a malformed body).  On a known up interface it sets `currentIface` and
replaces `seen` with a fresh empty map; otherwise it returns an error
response and the state is left untouched. -/
def setInterfaceHandler (sys : List NetInterface) (st : ServerState)
    (req : Option String) : ServerState × SetIfaceResult :=
  match req with
  | none => (st, SetIfaceResult.badRequest)
  | some name =>
    if name = "" then (st, SetIfaceResult.badRequest)
    else if (getNetworkInterfaces sys).any (fun i => i.name == name) then
      ({ st with currentIface := name, seen := resetSeen },
       SetIfaceResult.ok name)
    else (st, SetIfaceResult.notFound name)

/-! ### Discovery start-up and interface (non-)use (main.go:109-165, 238-251)

`startMDNSDiscovery` records the interface name and spawns three
concurrent activities.  The observable spawn is captured as data: which
browse loops start, how the multicast listener binds, and which catalog
the scheduler queries.  None of the three reads the interface name:
`browseMDNSServices` never references its `iface` parameter, and
`net.ListenMulticastUDP("udp", nil, addr)` passes a nil interface. -/

/-- Catalog browsed by `browseMDNSServices` (main.go:146-159). -/
def browserServiceTypes : List String :=
  ["_http._tcp", "_https._tcp", "_ssh._tcp", "_sftp._tcp",
   "_smb._tcp", "_afpovertcp._tcp", "_nfs._tcp", "_ldap._tcp",
   "_sip._tcp", "_xmpp._tcp", "_workstation._tcp", "_device-info._tcp"]

/-- Catalog queried by the periodic scheduler (main.go:122-131). -/
def schedulerServiceTypes : List String :=
  ["_http._tcp.local.", "_https._tcp.local.", "_ssh._tcp.local.",
   "_sftp._tcp.local.", "_smb._tcp.local.", "_afpovertcp._tcp.local.",
   "_nfs._tcp.local.", "_ldap._tcp.local."]

/-- How the multicast listener binds its socket. -/
structure ListenBinding where
  network : String
  iface : Option String
  group : String
deriving DecidableEq, Repr

/-- `net.ListenMulticastUDP("udp", nil, addr)` with
`addr = 224.0.0.251:5353` (main.go:240-246): the interface argument is
nil. -/
def listenMDNSBinding : ListenBinding :=
  { network := "udp", iface := none, group := "224.0.0.251:5353" }

/-- `browseMDNSServices` (main.go:144-165): spawns one
`browseServiceType` loop per catalog entry; the `iface` parameter is
never read in the body. -/
def browseMDNSServices (iface : String) : List String :=
  browserServiceTypes

/-- The observable effect of `startMDNSDiscovery` beyond the state
write: which loops start and how they bind. -/
structure DiscoverySpawn where
  browseLoops : List String
  listen : ListenBinding
  schedulerCatalog : List String
deriving DecidableEq, Repr

/-- `startMDNSDiscovery` (main.go:109-142): store the interface name in
the server state, then spawn the browser loops, the multicast listener
and the periodic scheduler. -/
def startMDNSDiscovery (st : ServerState) (iface : String) :
    ServerState × DiscoverySpawn :=
  ({ st with currentIface := iface },
   { browseLoops := browseMDNSServices iface,
     listen := listenMDNSBinding,
     schedulerCatalog := schedulerServiceTypes })

/-! ### Interleaving model of the two admission disciplines

`browseServiceType` (main.go:203-210) and the listener's SRV branch
(main.go:289-296) admit a key in two separate critical sections: a
locked read of `seen[key]`, then — when the read said unseen — a locked
write `seen[key] = true` followed by the publication.  `queryHostIP`
(main.go:395-401) instead reads and writes in one critical section.
Both disciplines are modelled as two concurrent threads working on the
same key, driven by an explicit schedule (`true` = first thread moves). -/

/-- Progress of one thread through the two-phase (read, then write)
admission of main.go:203-210 / main.go:289-296. -/
inductive AdmPhase
  | toRead
  | toWrite (sawSeen : Bool)
  | done (published : Bool)
deriving DecidableEq, Repr

/-- One critical section of the two-phase discipline: the read records
what the thread saw; the write publishes whenever the earlier read said
unseen, regardless of the current cache contents. -/
def phaseStep (key : String) (seen : List String) :
    AdmPhase → AdmPhase × List String × Nat
  | AdmPhase.toRead => (AdmPhase.toWrite (decide (key ∈ seen)), seen, 0)
  | AdmPhase.toWrite sawSeen =>
    if sawSeen then (AdmPhase.done false, seen, 0)
    else
      (AdmPhase.done true,
       if key ∈ seen then seen else key :: seen, 1)
  | AdmPhase.done p => (AdmPhase.done p, seen, 0)

/-- Two threads racing the two-phase admission on one key, plus the
count of publications performed so far. -/
structure RaceState where
  seen : List String
  thA : AdmPhase
  thB : AdmPhase
  pubs : Nat
deriving DecidableEq, Repr

/-- Let the scheduled thread execute its next critical section. -/
def raceStep (key : String) (st : RaceState) (moveA : Bool) : RaceState :=
  if moveA then
    let out := phaseStep key st.seen st.thA
    { st with thA := out.1, seen := out.2.1, pubs := st.pubs + out.2.2 }
  else
    let out := phaseStep key st.seen st.thB
    { st with thB := out.1, seen := out.2.1, pubs := st.pubs + out.2.2 }

/-- Run a schedule of critical sections. -/
def raceRun (key : String) (st : RaceState) (sched : List Bool) : RaceState :=
  sched.foldl (raceStep key) st

/-- Both threads poised to admit, fresh session cache. -/
def raceInit : RaceState :=
  { seen := [], thA := AdmPhase.toRead, thB := AdmPhase.toRead, pubs := 0 }

/-- Two threads racing the single-critical-section discipline of
`queryHostIP` (main.go:395-401): each thread performs `tryAdmit` in one
indivisible step. -/
structure AtomicRaceState where
  seen : List String
  aDone : Bool
  bDone : Bool
  pubs : Nat
deriving DecidableEq, Repr

/-- One scheduled step of the atomic discipline. -/
def atomicStep (key : String) (st : AtomicRaceState) (moveA : Bool) :
    AtomicRaceState :=
  if moveA then
    if st.aDone then st
    else
      let out := tryAdmit st.seen key
      { st with
        aDone := true
        seen := out.2
        pubs := st.pubs + (if out.1 then 1 else 0) }
  else
    if st.bDone then st
    else
      let out := tryAdmit st.seen key
      { st with
        bDone := true
        seen := out.2
        pubs := st.pubs + (if out.1 then 1 else 0) }

/-- Run a schedule of atomic admissions. -/
def atomicRun (key : String) (st : AtomicRaceState) (sched : List Bool) :
    AtomicRaceState :=
  sched.foldl (atomicStep key) st

/-- Fresh-session start state of the atomic discipline. -/
def atomicInit : AtomicRaceState :=
  { seen := [], aDone := false, bDone := false, pubs := 0 }

/-! ### Hub channel lifecycle in `Discover` (main.go:74-107)

`Discover` registers its channel, then defers first the unregistration
(main.go:82) and then the close (main.go:83).  Go runs defers in
last-in-first-out order, so on return the close executes before the
unregistration.  The registry and the set of closed channels are
tracked explicitly; in Go, a send on a closed channel panics even
inside a `select` with a `default` branch. -/

/-- Operations `Discover` performs on the Hub state. -/
inductive HubOp
  | register (ch : Nat)
  | unregister (ch : Nat)
  | closeCh (ch : Nat)
deriving DecidableEq, Repr

/-- Which channels are registered (`s.clients`) and which are closed. -/
structure HubChannels where
  registry : List Nat
  closed : List Nat
deriving DecidableEq, Repr

/-- Effect of one operation: `registerClient` (main.go:62-66),
`unregisterClient`'s `delete` (main.go:68-72), and `close`. -/
def applyHubOp (st : HubChannels) : HubOp → HubChannels
  | HubOp.register ch =>
    { st with registry := if ch ∈ st.registry then st.registry else ch :: st.registry }
  | HubOp.unregister ch =>
    { st with registry := st.registry.filter (fun c => c != ch) }
  | HubOp.closeCh ch =>
    { st with closed := if ch ∈ st.closed then st.closed else ch :: st.closed }

/-- Execute a list of Hub operations in order. -/
def runHubOps (st : HubChannels) (ops : List HubOp) : HubChannels :=
  ops.foldl applyHubOp st

/-- The defers `Discover` registers, in source order (main.go:82-83). -/
def discoverDefers (ch : Nat) : List HubOp :=
  [HubOp.unregister ch, HubOp.closeCh ch]

/-- The order in which those defers actually execute: last-in-first-out. -/
def discoverCleanup (ch : Nat) : List HubOp :=
  (discoverDefers ch).reverse

/-- `broadcast` iterates `s.clients` and performs a send on every
registered channel (main.go:53-58); this flag holds exactly when some
registered channel is closed, i.e. when that iteration sends on a
closed channel. -/
def broadcastHitsClosed (st : HubChannels) : Bool :=
  st.registry.any (fun c => decide (c ∈ st.closed))

/-! ### Concrete fixtures used by counterexamples and witnesses -/

/-- The identity key of the running example service. -/
def demoKey : String := mkKey "10.0.0.5" "_ssh._tcp.local." 22

/-- Environment providing the simulated location and address answers of
the end-to-end scenario: the SRV query for `box._ssh._tcp.local.`
resolves to host `box.local.` port 22, and the A query for `box.local.`
resolves to `10.0.0.5`; everything else times out. -/
def demoEnv : DNSEnv :=
  { exchange := fun qname qtype =>
      match qtype with
      | QType.srvQ =>
        if qname = "box._ssh._tcp.local." then
          some [DNSAnswer.srv "box._ssh._tcp.local." "box.local." 22]
        else none
      | QType.aQ =>
        if qname = "box.local." then
          some [DNSAnswer.a "box.local." "10.0.0.5"]
        else none
      | QType.ptrQ => none,
    lookupIP := fun _ => none }

/-- The simulated pointer answer received by the multicast listener:
category `_ssh._tcp.local.` pointing at instance
`box._ssh._tcp.local.`. -/
def demoPtrAnswers : List DNSAnswer :=
  [DNSAnswer.ptr "_ssh._tcp.local." "box._ssh._tcp.local."]

/-- An environment where both resolution tiers fail for every host. -/
def deadEnv : DNSEnv :=
  { exchange := fun _ _ => none, lookupIP := fun _ => none }

/-- An environment resolving two distinct hostnames to one address,
used to show that `name` and `host` never enter the identity key. -/
def twoHostEnv : DNSEnv :=
  { exchange := fun qname qtype =>
      match qtype with
      | QType.aQ =>
        if qname = "box.local." then some [DNSAnswer.a "box.local." "10.0.0.5"]
        else if qname = "box2.local." then some [DNSAnswer.a "box2.local." "10.0.0.5"]
        else none
      | _ => none,
    lookupIP := fun _ => none }

/-- A small interface table: two up interfaces and one down one. -/
def demoIfaces : List NetInterface :=
  [{ name := "en0", mtu := 1500, up := true },
   { name := "lo0", mtu := 16384, up := true },
   { name := "en7", mtu := 1500, up := false }]

/-- A full subscriber queue (100 pending events). -/
def fullQueue : List DiscoveryResponse :=
  List.replicate chanCapacity
    { service := { name := "old", type := "_http._tcp.local.",
                   host := "old.local", ip := "10.0.0.9", port := 80,
                   timestamp := 0 },
      removed := false }

/-- A subscriber whose channel is full. -/
def wSubFull : Subscriber := { id := 0, queue := fullQueue }

/-- A subscriber with an empty channel. -/
def wSubEmpty : Subscriber := { id := 1, queue := [] }

/-- The event published in the running example. -/
def wEvent : DiscoveryResponse :=
  { service := { name := "box", type := "_ssh._tcp.local.",
                 host := "box.local", ip := "10.0.0.5", port := 22,
                 timestamp := 0 },
    removed := false }

/-- A server state in which the running example's key has already been
admitted. -/
def wState : ServerState :=
  { clients := [], seen := [demoKey], currentIface := "en5" }

/-! ## Theorems -/

/-- C1: Within one session, the first `tryAdmit` of an identity key
returns `true` and records the key; the key stays recorded across any
later admissions and every later `tryAdmit` with the same key returns
`false` and leaves the cache unchanged; after a reset
(`seen = make(map[string]bool)`, main.go:559) the same key is admitted
again. -/
theorem tryAdmit_once_per_session (seen : List String) (k : String)
    (h : k ∉ seen) :
    (tryAdmit seen k).1 = true ∧
    k ∈ (tryAdmit seen k).2 ∧
    (∀ s : List String, k ∈ s →
      (tryAdmit s k).1 = false ∧ (tryAdmit s k).2 = s) ∧
    (∀ s : List String, ∀ k2 : String, k ∈ s → k ∈ (tryAdmit s k2).2) ∧
    k ∉ resetSeen ∧ (tryAdmit resetSeen k).1 = true := by
  refine ⟨by simp [tryAdmit, h], by simp [tryAdmit, h], ?_, ?_, ?_, ?_⟩
  · intro s hs
    simp [tryAdmit, hs]
  · intro s k2 hs
    by_cases h2 : k2 ∈ s
    · simpa [tryAdmit, h2] using hs
    · simp only [tryAdmit, if_neg h2]
      exact List.mem_cons_of_mem _ hs
  · simp [resetSeen]
  · simp [tryAdmit, resetSeen]

/-- C1 witness: the running example's key is admitted once, rejected on
the second call, and admitted again after a reset. -/
theorem tryAdmit_once_per_session_witness :
    (tryAdmit [] demoKey).1 = true ∧
    (tryAdmit (tryAdmit [] demoKey).2 demoKey).1 = false ∧
    (tryAdmit resetSeen demoKey).1 = true := by
  have h := tryAdmit_once_per_session [] demoKey (List.not_mem_nil demoKey)
  exact ⟨h.1, (h.2.2.1 (tryAdmit [] demoKey).2 h.2.1).1, h.2.2.2.2.2⟩

/-- Invariant of the single-critical-section discipline: a step of
`atomicStep` keeps the state in "nothing published and the key unseen,
or published exactly once and the key recorded". -/
theorem atomicStep_invariant (key : String) (st : AtomicRaceState) (b : Bool)
    (h : (st.pubs = 0 ∧ key ∉ st.seen) ∨ (st.pubs = 1 ∧ key ∈ st.seen)) :
    ((atomicStep key st b).pubs = 0 ∧ key ∉ (atomicStep key st b).seen) ∨
    ((atomicStep key st b).pubs = 1 ∧ key ∈ (atomicStep key st b).seen) := by
  cases b with
  | true =>
    by_cases hd : st.aDone
    · simpa [atomicStep, hd] using h
    · rcases h with ⟨h1, h2⟩ | ⟨h1, h2⟩
      · exact Or.inr ⟨by simp [atomicStep, hd, tryAdmit, h2, h1],
          by simp [atomicStep, hd, tryAdmit, h2]⟩
      · exact Or.inr ⟨by simp [atomicStep, hd, tryAdmit, h2, h1],
          by simp [atomicStep, hd, tryAdmit, h2]⟩
  | false =>
    by_cases hd : st.bDone
    · simpa [atomicStep, hd] using h
    · rcases h with ⟨h1, h2⟩ | ⟨h1, h2⟩
      · exact Or.inr ⟨by simp [atomicStep, hd, tryAdmit, h2, h1],
          by simp [atomicStep, hd, tryAdmit, h2]⟩
      · exact Or.inr ⟨by simp [atomicStep, hd, tryAdmit, h2, h1],
          by simp [atomicStep, hd, tryAdmit, h2]⟩

/-- Under the atomic check-and-set discipline of `queryHostIP`, every
schedule of the two racing threads publishes the key at most once. -/
theorem atomicRun_pubs_le_one (key : String) (sched : List Bool) :
    (atomicRun key atomicInit sched).pubs ≤ 1 := by
  suffices hgen : ∀ st : AtomicRaceState,
      ((st.pubs = 0 ∧ key ∉ st.seen) ∨ (st.pubs = 1 ∧ key ∈ st.seen)) →
      (atomicRun key st sched).pubs ≤ 1 by
    exact hgen atomicInit (Or.inl ⟨rfl, List.not_mem_nil key⟩)
  induction sched with
  | nil =>
    intro st h
    rcases h with ⟨h1, _⟩ | ⟨h1, _⟩ <;> simp [atomicRun, h1]
  | cons b rest ih =>
    intro st h
    have hstep := atomicStep_invariant key st b h
    simpa [atomicRun] using ih (atomicStep key st b) hstep

/-- C2: The admission at the listener's SRV branch (main.go:289-296)
and in `browseServiceType` (main.go:203-210) is a locked read followed
by a separate locked write, not one atomic check-and-set.  Under the
interleaving read-A, read-B, write-A, write-B both loops observe the
key as unseen and both publish, so the same identity is published
twice; the single-critical-section discipline actually used by
`queryHostIP` publishes at most once under every schedule. -/
theorem nonatomic_admission_publishes_twice :
    (raceRun demoKey raceInit [true, false, true, false]).pubs = 2 ∧
    (∀ sched : List Bool, (atomicRun demoKey atomicInit sched).pubs ≤ 1) :=
  ⟨by decide, fun sched => atomicRun_pubs_le_one demoKey sched⟩

/-- C3: `broadcast` keeps the subscriber set intact and, for each
registered subscriber independently, appends the event to its queue
when the queue has spare capacity (fewer than 100 pending events) and
drops the event for that subscriber alone when the queue is full; the
non-blocking enqueue never blocks the publisher. -/
theorem hub_publish_per_subscriber (clients : List Subscriber)
    (e : DiscoveryResponse) (i : Nat) (c : Subscriber)
    (h : clients[i]? = some c) :
    (broadcast clients e).length = clients.length ∧
    (broadcast clients e)[i]? =
      some { c with queue :=
        if c.queue.length < chanCapacity then c.queue ++ [e] else c.queue } := by
  constructor
  · simp [broadcast]
  · simp [broadcast, List.getElem?_map, h, trySend]

/-- C3 witness: publishing to one full and one empty subscriber leaves
the full subscriber untouched and delivers the event to the empty
one. -/
theorem hub_publish_per_subscriber_witness :
    (broadcast [wSubFull, wSubEmpty] wEvent)[0]? = some wSubFull ∧
    (broadcast [wSubFull, wSubEmpty] wEvent)[1]? =
      some { id := 1, queue := [wEvent] } := by
  have h0 := (hub_publish_per_subscriber [wSubFull, wSubEmpty] wEvent 0 wSubFull rfl).2
  have h1 := (hub_publish_per_subscriber [wSubFull, wSubEmpty] wEvent 1 wSubEmpty rfl).2
  constructor
  · rw [h0]
    decide
  · rw [h1]
    decide

/-- C4 counterexample: on the simulated three-answer scenario the
pipeline publishes exactly one record, but its `host` field is
`"box.local"` — the code strips the trailing dot of the SRV target
(main.go:381) — not `"box.local."` as the claim states. -/
theorem pipeline_host_counterexample :
    ((processAnswers demoEnv [] 0 demoPtrAnswers).2.map
        fun r => r.service.host) = ["box.local"] ∧
    ¬ ((processAnswers demoEnv [] 0 demoPtrAnswers).2.map
        fun r => r.service.host) = ["box.local."] := by
  constructor
  · decide
  · decide

/-- C4 (amended): given the pointer answer for `_ssh._tcp.local.`
pointing at `box._ssh._tcp.local.`, the location answer resolving it
to host `box.local.` port 22, and the address answer resolving
`box.local.` to `10.0.0.5`, the pipeline performs exactly one
publication, of the record with name `"box"`, category
`"_ssh._tcp.local."`, host `"box.local"` (trailing dot stripped),
address `"10.0.0.5"`, port 22; delivering the same answers a second
time publishes nothing. -/
theorem pipeline_end_to_end_once :
    (processAnswers demoEnv [] 0 demoPtrAnswers).2 =
      [{ service := { name := "box", type := "_ssh._tcp.local.",
                      host := "box.local", ip := "10.0.0.5", port := 22,
                      timestamp := 0 },
         removed := false }] ∧
    (processAnswers demoEnv (processAnswers demoEnv [] 0 demoPtrAnswers).1 0
        demoPtrAnswers).2 = [] := by
  constructor
  · decide
  · decide

/-- C5: The identity key of a publication made by `queryHostIP` is
exactly `mkKey address category port`; the record's `name` and `host`
never enter it, so a second candidate that differs only in instance
name and hostname (but resolves to the same address with the same
category and port) is deduplicated and publishes nothing. -/
theorem dedup_key_is_address_category_port
    (env : DNSEnv) (seen : List String) (h1 h2 n1 n2 stype : String)
    (p : Nat) (t1 t2 : Int)
    (hsame : resolveHostIP env (trimSuffixDot h2) =
      resolveHostIP env (trimSuffixDot h1))
    (hip : ¬ resolveHostIP env (trimSuffixDot h1) = "")
    (hfresh : mkKey (resolveHostIP env (trimSuffixDot h1)) stype p ∉ seen) :
    ((queryHostIP env seen h1 n1 stype p t1).2.map
        fun r => mkKey r.service.ip r.service.type r.service.port) =
      [mkKey (resolveHostIP env (trimSuffixDot h1)) stype p] ∧
    (queryHostIP env (queryHostIP env seen h1 n1 stype p t1).1
        h2 n2 stype p t2).2 = [] := by
  constructor
  · simp [queryHostIP, hip, hfresh]
  · simp [queryHostIP, hip, hfresh, hsame]

/-- C5 witness: two candidates with distinct instance names and
distinct hostnames resolving to one `(address, category, port)` triple
produce a single publication. -/
theorem dedup_key_is_address_category_port_witness :
    ((queryHostIP twoHostEnv [] "box.local." "box._ssh._tcp.local."
        "_ssh._tcp.local." 22 0).2.map
        fun r => mkKey r.service.ip r.service.type r.service.port) =
      [mkKey (resolveHostIP twoHostEnv (trimSuffixDot "box.local."))
        "_ssh._tcp.local." 22] ∧
    (queryHostIP twoHostEnv
        (queryHostIP twoHostEnv [] "box.local." "box._ssh._tcp.local."
          "_ssh._tcp.local." 22 0).1
        "box2.local." "renamed._ssh._tcp.local." "_ssh._tcp.local." 22 1).2 = [] :=
  dedup_key_is_address_category_port twoHostEnv []
    "box.local." "box2.local." "box._ssh._tcp.local."
    "renamed._ssh._tcp.local." "_ssh._tcp.local." 22 0 1
    (by decide) (by decide) (by decide)

/-- C6: A `setInterface` request naming a currently enumerated up
interface succeeds, binds `currentIface` to the new name, leaves the
subscriber set untouched, and clears every previously admitted
deduplication key before anything else runs, so any re-discovered
candidate — including one already reported in the old session — is
published again. -/
theorem setInterface_known_clears_and_rereports
    (sys : List NetInterface) (st : ServerState) (name : String)
    (env : DNSEnv) (host svcName svcType : String) (p : Nat) (now : Int)
    (hfound : (getNetworkInterfaces sys).any (fun i => i.name == name) = true)
    (hname : ¬ name = "")
    (hip : ¬ resolveHostIP env (trimSuffixDot host) = "") :
    (setInterfaceHandler sys st (some name)).2 = SetIfaceResult.ok name ∧
    (setInterfaceHandler sys st (some name)).1.seen = resetSeen ∧
    (setInterfaceHandler sys st (some name)).1.currentIface = name ∧
    (setInterfaceHandler sys st (some name)).1.clients = st.clients ∧
    (queryHostIP env (setInterfaceHandler sys st (some name)).1.seen
        host svcName svcType p now).2.length = 1 := by
  have hstate : setInterfaceHandler sys st (some name) =
      ({ st with currentIface := name, seen := resetSeen },
       SetIfaceResult.ok name) := by
    simp [setInterfaceHandler, hname, hfound]
  refine ⟨by rw [hstate], by rw [hstate], by rw [hstate], by rw [hstate], ?_⟩
  rw [hstate]
  simp [queryHostIP, hip, resetSeen]

/-- C6 witness: switching from `en5` to the known interface `en0`
clears a cache holding the running example's key, and the example
candidate is published again afterwards. -/
theorem setInterface_known_clears_and_rereports_witness :
    (setInterfaceHandler demoIfaces wState (some "en0")).2 =
      SetIfaceResult.ok "en0" ∧
    (setInterfaceHandler demoIfaces wState (some "en0")).1.seen = resetSeen ∧
    (setInterfaceHandler demoIfaces wState (some "en0")).1.currentIface = "en0" ∧
    (setInterfaceHandler demoIfaces wState (some "en0")).1.clients =
      wState.clients ∧
    (queryHostIP demoEnv
        (setInterfaceHandler demoIfaces wState (some "en0")).1.seen
        "box.local." "box._ssh._tcp.local." "_ssh._tcp.local." 22 0).2.length = 1 :=
  setInterface_known_clears_and_rereports demoIfaces wState "en0" demoEnv
    "box.local." "box._ssh._tcp.local." "_ssh._tcp.local." 22 0
    (by decide) (by decide) (by decide)

/-- C7: A `setInterface` request naming an interface absent from the
current up-interface enumeration answers with the not-found condition
and returns the state exactly as it was: same interface binding, same
deduplication cache, same subscribers. -/
theorem setInterface_unknown_leaves_state
    (sys : List NetInterface) (st : ServerState) (name : String)
    (hname : ¬ name = "")
    (hnotfound : (getNetworkInterfaces sys).any (fun i => i.name == name) = false) :
    setInterfaceHandler sys st (some name) = (st, SetIfaceResult.notFound name) := by
  simp [setInterfaceHandler, hname, hnotfound]

/-- C7 witness: `setInterface("nonexistent0")` against the demo
interface table fails with not-found and leaves the state record
untouched. -/
theorem setInterface_unknown_leaves_state_witness :
    setInterfaceHandler demoIfaces wState (some "nonexistent0") =
      (wState, SetIfaceResult.notFound "nonexistent0") :=
  setInterface_unknown_leaves_state demoIfaces wState "nonexistent0"
    (by decide) (by decide)

/-- C8: `resolveHostIP` consults the multicast A-record tier first and
returns its address without the unicast tier whenever it yields one;
only when the multicast tier yields no address does it return the
unicast fallback result; and when both tiers fail it returns the empty
string, in which case `queryHostIP` drops the candidate entirely — no
publication and no cache change. -/
theorem resolveAddress_two_tier
    (env : DNSEnv) (seen : List String)
    (host svcName svcType : String) (p : Nat) (now : Int)
    (hmult : multicastA env (trimSuffixDot host) = none)
    (huni : lookupFallback env (trimSuffixDot host) = "") :
    (∀ e2 : DNSEnv, ∀ hn addr : String,
      multicastA e2 hn = some addr → resolveHostIP e2 hn = addr) ∧
    (∀ e2 : DNSEnv, ∀ hn : String,
      multicastA e2 hn = none → resolveHostIP e2 hn = lookupFallback e2 hn) ∧
    resolveHostIP env (trimSuffixDot host) = "" ∧
    queryHostIP env seen host svcName svcType p now = (seen, []) := by
  have tier1 : ∀ e2 : DNSEnv, ∀ hn addr : String,
      multicastA e2 hn = some addr → resolveHostIP e2 hn = addr := by
    intro e2 hn addr hm
    unfold multicastA at hm
    unfold resolveHostIP
    cases hex : e2.exchange (hn ++ ".") QType.aQ with
    | none => simp [hex] at hm
    | some answers =>
      rw [hex] at hm
      have hm2 : firstA answers = some addr := hm
      simp [hm2]
  have tier2 : ∀ e2 : DNSEnv, ∀ hn : String,
      multicastA e2 hn = none → resolveHostIP e2 hn = lookupFallback e2 hn := by
    intro e2 hn hm
    unfold multicastA at hm
    unfold resolveHostIP
    cases hex : e2.exchange (hn ++ ".") QType.aQ with
    | none => rfl
    | some answers =>
      rw [hex] at hm
      have hm2 : firstA answers = none := hm
      simp [hm2]
  have hres : resolveHostIP env (trimSuffixDot host) = "" :=
    (tier2 env (trimSuffixDot host) hmult).trans huni
  refine ⟨tier1, tier2, hres, ?_⟩
  simp [queryHostIP, hres]

/-- C8 witness: in an environment where every exchange and every
unicast lookup fails, the resolver returns no address and the
candidate is dropped without publication or cache change. -/
theorem resolveAddress_two_tier_witness :
    resolveHostIP deadEnv (trimSuffixDot "ghost.local.") = "" ∧
    queryHostIP deadEnv [] "ghost.local." "ghost._ssh._tcp.local."
      "_ssh._tcp.local." 22 0 = ([], []) := by
  have h := resolveAddress_two_tier deadEnv [] "ghost.local."
    "ghost._ssh._tcp.local." "_ssh._tcp.local." 22 0 (by decide) (by decide)
  exact ⟨h.2.2.1, h.2.2.2⟩

/-- C9: `Discover` defers the unregistration before the close
(main.go:82-83), and Go runs defers last-in-first-out, so the close
executes first: after that first cleanup step the registry still
contains the — now closed — channel, and a `broadcast` in that state
performs a send on a closed channel (a panic in Go); the
unregistration only happens afterwards. -/
theorem discover_cleanup_closed_channel_in_registry :
    discoverCleanup 0 = [HubOp.closeCh 0, HubOp.unregister 0] ∧
    (runHubOps (applyHubOp { registry := [], closed := [] } (HubOp.register 0))
        (List.take 1 (discoverCleanup 0))).registry = [0] ∧
    (runHubOps (applyHubOp { registry := [], closed := [] } (HubOp.register 0))
        (List.take 1 (discoverCleanup 0))).closed = [0] ∧
    broadcastHitsClosed
      (runHubOps (applyHubOp { registry := [], closed := [] } (HubOp.register 0))
        (List.take 1 (discoverCleanup 0))) = true ∧
    (runHubOps (applyHubOp { registry := [], closed := [] } (HubOp.register 0))
        (discoverCleanup 0)).registry = [] := by
  refine ⟨by decide, by decide, by decide, by decide, by decide⟩

/-- C10: The selected interface name never influences discovery
behavior: `startMDNSDiscovery` with any two interface names spawns
identical browse loops, an identical (nil-interface) multicast
listener binding, and an identical scheduler catalog; only the stored
`currentIface` string differs, and the rest of the server state is
untouched. -/
theorem iface_never_influences_discovery (st : ServerState) (i1 i2 : String) :
    (startMDNSDiscovery st i1).2 = (startMDNSDiscovery st i2).2 ∧
    browseMDNSServices i1 = browseMDNSServices i2 ∧
    listenMDNSBinding.iface = none ∧
    (startMDNSDiscovery st i1).1.currentIface = i1 ∧
    (startMDNSDiscovery st i1).1.seen = st.seen ∧
    (startMDNSDiscovery st i1).1.clients = st.clients :=
  ⟨rfl, rfl, rfl, rfl, rfl, rfl⟩

end NetworkView
